import Mathlib

/-
Shallow embedding of the predsim core (src/predsim.py): the parameter
translator `get_seqgen_params`, the Ti/Tv converter `kappa_to_titv`, the
input combiner `combine_simulation_input`, and the replicate orchestrator
`iter_seqgen_results` / `simulate_matrix`.

Modelling conventions:
- Python floats are modelled as rationals (ℚ); `float(s)` string conversion
  is modelled by an exact decimal parser.
- Python exceptions are modelled with `Except PyError`; `try/except KeyError`
  becomes `catchKeyError` which intercepts only the `keyError` constructor.
- A MrBayes parameter record (one row of a p-file, as produced by
  `csv.DictReader`) is an association list from key strings to value strings.
- The external Seq-Gen process (`dendropy.interop.seqgen.SeqGen.generate` and
  `_compose_arguments`) is opaque to this core and is modelled by an abstract
  `SeqGenEngine`; `shutil.which` is abstracted to the identity on the path.
- A dendropy tree is opaque here; it is modelled by its newick serialization,
  with `tree_as_string` standing for `tree.as_string(schema='newick')`.
-/

deriving instance DecidableEq for Except

attribute [local semireducible] Rat.add Rat.mul Rat.inv Rat.sub

namespace Predsim

/-- The Python exception classes raised by the embedded code. -/
inductive PyError : Type
  | keyError (key : String)
  | valueError (msg : String)
  | zeroDivisionError
  | assertionError (msg : String)
deriving DecidableEq, Repr

abbrev PDict := List (String × String)

/-- A dendropy tree, modelled by its newick text. -/
structure Tree where
  newick : String
deriving DecidableEq, Repr

/-- Models `tree.as_string(schema='newick')`. -/
def tree_as_string (t : Tree) : String := t.newick

abbrev RngSeed := Option String

abbrev SimTriple := Tree × PDict × RngSeed

abbrev Alignment := List (String × String)

/-- Python division `a / b`: raises `ZeroDivisionError` when `b == 0`. -/
def pyDiv (a b : ℚ) : Except PyError ℚ :=
  if b = 0 then .error .zeroDivisionError else .ok (a / b)

/-- Digits of a numeral to a natural number. -/
def digitsToNat (l : List Char) : ℕ :=
  l.foldl (fun n c => 10 * n + (c.toNat - 48)) 0

/-- Parse an unsigned decimal numeral (digits, optionally a point and more
digits) to an exact rational. -/
def parseUnsignedDecimal (l : List Char) : Option ℚ :=
  match l.span Char.isDigit with
  | (ip, []) => if ip.isEmpty then none else some ((digitsToNat ip : ℚ))
  | (ip, c :: fp) =>
    if c = '.' ∧ (fp.all Char.isDigit = true) ∧ ¬(ip = [] ∧ fp = []) then
      some ((digitsToNat ip : ℚ) + (digitsToNat fp : ℚ) / ((10 : ℚ) ^ fp.length))
    else none

/-- Models Python `float(s)` on the decimal numerals occurring in MrBayes
p-files (binary floating point is abstracted to exact rationals). -/
def parsePyFloat (s : String) : Option ℚ :=
  match s.toList with
  | '-' :: rest => (parseUnsignedDecimal rest).map Neg.neg
  | l => parseUnsignedDecimal l

def floatErrMsg (s : String) : String :=
  "could not convert string to float: " ++ s

/-- Python `float(s)` as an `Except` computation: unparseable text raises
`ValueError`. -/
def pyFloat (s : String) : Except PyError ℚ :=
  match parsePyFloat s with
  | some q => .ok q
  | none => .error (.valueError (floatErrMsg s))

/-- The function `kappa_to_titv` from src/predsim.py lines 191-200: rescale the four
frequencies by their sum when it is further than 1e-6 from 1, then compute
`kappa * (piA*piG + piC*piT) / ((piA+piG) * (piC+piT))`.  Each Python
division is `pyDiv`, so a zero divisor raises `ZeroDivisionError`. -/
def kappa_to_titv (kappa piA piC piG piT : ℚ) : Except PyError ℚ := do
  let tot := piA + piC + piG + piT
  if |tot - 1| > 1 / 1000000 then
    let a ← pyDiv piA tot
    let c ← pyDiv piC tot
    let g ← pyDiv piG tot
    let t ← pyDiv piT tot
    pyDiv (kappa * (a * g + c * t)) ((a + g) * (c + t))
  else
    pyDiv (kappa * (piA * piG + piC * piT)) ((piA + piG) * (piC + piT))

/-- The frequencies `kappa_to_titv` actually feeds to its final formula
(rescaled by the sum when the sum is further than 1e-6 from 1); used to
state claims about the post-rescaling frequency groups. -/
def rescaled_freqs (piA piC piG piT : ℚ) : ℚ × ℚ × ℚ × ℚ :=
  let tot := piA + piC + piG + piT
  if |tot - 1| > 1 / 1000000 then (piA / tot, piC / tot, piG / tot, piT / tot)
  else (piA, piC, piG, piT)

def piA_key : String := "pi(A)"
def piC_key : String := "pi(C)"
def piG_key : String := "pi(G)"
def piT_key : String := "pi(T)"
def kappa_key : String := "kappa"
def alpha_key : String := "alpha"
def pinvar_key : String := "pinvar"
def rAC_key : String := "r(A<->C)"
def rAG_key : String := "r(A<->G)"
def rAT_key : String := "r(A<->T)"
def rCG_key : String := "r(C<->G)"
def rCT_key : String := "r(C<->T)"
def rGT_key : String := "r(G<->T)"

def comma_str : String := ","

/-- First value stored under key `k`, mirroring Python dict lookup. -/
def dict_find (d : PDict) (k : String) : Option String :=
  match d.find? (fun kv => kv.1 == k) with
  | some kv => some kv.2
  | none => none

/-- Subscription `d[k]` in Python: raises `KeyError` when the key is absent. -/
def pyLookup (d : PDict) (k : String) : Except PyError String :=
  match dict_find d k with
  | some v => .ok v
  | none => .error (.keyError k)

/-- Key `k` is present in the record. -/
def has_key (d : PDict) (k : String) : Prop := (dict_find d k).isSome = true

instance (d : PDict) (k : String) : Decidable (has_key d k) := by
  unfold has_key; infer_instance

/-- Python `try: ... except KeyError: pass` — a `KeyError` yields `none`, any other
exception propagates. -/
def catchKeyError {α : Type} (x : Except PyError α) : Except PyError (Option α) :=
  match x with
  | .ok a => .ok (some a)
  | .error (.keyError _) => .ok none
  | .error e => .error e

/-- Python `try: ... except KeyError:` with a default value in the handler. -/
def catchKeyErrorD {α : Type} (x : Except PyError α) (dflt : α) : Except PyError α :=
  match x with
  | .ok a => .ok a
  | .error (.keyError _) => .ok dflt
  | .error e => .error e

/-- The `state_freqs` try-block of `get_seqgen_params` (lines 217-222):
the four frequency values joined with commas; a missing key raises
`KeyError`. -/
def state_freqs_block (d : PDict) : Except PyError String := do
  let a ← pyLookup d piA_key
  let c ← pyLookup d piC_key
  let g ← pyLookup d piG_key
  let t ← pyLookup d piT_key
  pure (a ++ comma_str ++ c ++ comma_str ++ g ++ comma_str ++ t)

/-- The `ti_tv` try-block of `get_seqgen_params` (lines 225-231): look up and
`float`-convert `kappa` and the four frequencies in source order, then call
`kappa_to_titv`.  Only `KeyError` is caught by the caller; `ValueError` from
`float` and `ZeroDivisionError` from `kappa_to_titv` propagate. -/
def ti_tv_block (d : PDict) : Except PyError ℚ := do
  let ks ← pyLookup d kappa_key
  let k ← pyFloat ks
  let sa ← pyLookup d piA_key
  let a ← pyFloat sa
  let sc ← pyLookup d piC_key
  let c ← pyFloat sc
  let sg ← pyLookup d piG_key
  let g ← pyFloat sg
  let st ← pyLookup d piT_key
  let t ← pyFloat st
  kappa_to_titv k a c g t

/-- The `general_rates` try-block of `get_seqgen_params` (lines 234-241):
the six pairwise rate values joined with commas. -/
def general_rates_block (d : PDict) : Except PyError String := do
  let r1 ← pyLookup d rAC_key
  let r2 ← pyLookup d rAG_key
  let r3 ← pyLookup d rAT_key
  let r4 ← pyLookup d rCG_key
  let r5 ← pyLookup d rCT_key
  let r6 ← pyLookup d rGT_key
  pure (r1 ++ comma_str ++ r2 ++ comma_str ++ r3 ++ comma_str ++ r4 ++ comma_str ++ r5 ++ comma_str ++ r6)

/-- The normalized Seq-Gen parameter set assembled by `get_seqgen_params`
(a Python dict with `state_freqs` always present and the rest optional). -/
structure SeqgenParams where
  state_freqs : String
  ti_tv : Option ℚ
  general_rates : Option String
  gamma_shape : Option String
  prop_invar : Option String
deriving DecidableEq, Repr

def default_state_freqs : String := "0.25,0.25,0.25,0.25"

/-- The translator `get_seqgen_params` from src/predsim.py lines 203-252: each field comes
from a try-block whose `KeyError` is caught (the `state_freqs` handler
substitutes equal frequencies, the other handlers just skip the field);
any other exception propagates. -/
def get_seqgen_params (d : PDict) : Except PyError SeqgenParams := do
  let sf ← catchKeyErrorD (state_freqs_block d) default_state_freqs
  let titv ← catchKeyError (ti_tv_block d)
  let gr ← catchKeyError (general_rates_block d)
  let gs ← catchKeyError (pyLookup d alpha_key)
  let pv ← catchKeyError (pyLookup d pinvar_key)
  pure ⟨sf, titv, gr, gs, pv⟩

def trees_mismatch_msg : String :=
  "Number of trees does not match the number of records with parameter values."

def seeds_msg (n : ℕ) : String :=
  "There must be at least " ++ toString n ++ " seed numbers."

def no_records_msg : String := "No records to process!"

/-- The check `len(p_dicts) <= len(rng_seeds)` fails (only checked when seeds are
supplied). -/
def seed_shortfall (p_dicts : List PDict) (rng_seeds : Option (List String)) : Bool :=
  match rng_seeds with
  | none => false
  | some s => decide (s.length < p_dicts.length)

/-- Python `rng_seeds if rng_seeds else [None] * len(p_dicts)`: Python truthiness,
so both `None` and an empty list fall back to per-record `None` seeds. -/
def effective_seeds (rng_seeds : Option (List String)) (n : ℕ) : List RngSeed :=
  match rng_seeds with
  | none => List.replicate n none
  | some [] => List.replicate n none
  | some s => s.map some

/-- Three-way positional zip, truncating at the shortest list (Python
`zip`). -/
def zip3 {α β γ : Type} : List α → List β → List γ → List (α × β × γ)
  | x :: xs, y :: ys, z :: zs => (x, y, z) :: zip3 xs ys zs
  | _, _, _ => []

/-- The combiner `combine_simulation_input` from src/predsim.py lines 255-266: three
asserts in source order (tree/record cardinality, seed cardinality when
seeds are given, non-emptiness), then a positional zip with seeds
defaulting per record. -/
def combine_simulation_input (tree_list : List Tree) (p_dicts : List PDict)
    (rng_seeds : Option (List String)) : Except PyError (List SimTriple) :=
  if p_dicts.length ≠ tree_list.length then
    .error (.assertionError trees_mismatch_msg)
  else if seed_shortfall p_dicts rng_seeds then
    .error (.assertionError (seeds_msg p_dicts.length))
  else if p_dicts.length = 0 then
    .error (.assertionError no_records_msg)
  else
    .ok (zip3 tree_list p_dicts (effective_seeds rng_seeds p_dicts.length))

def gtr_name : String := "GTR"
def hky_name : String := "HKY"

def rate_conflict_msg : String :=
  "\"ti_tv\" or \"general_rates\" or both must be set to \"None\""

def gamma_cats_msg : String :=
  "If \"gamma_cats\" is specified, \"gamma_shape\" cannot be None"

/-- Python truthiness of an optional float: `None` and `0.0` are falsy. -/
def truthyQ : Option ℚ → Bool
  | none => false
  | some q => q != 0

/-- Python truthiness of an optional string: `None` and `""` are falsy. -/
def truthyS : Option String → Bool
  | none => false
  | some s => s != ""

/-- Python truthiness of an optional int: `None` and `0` are falsy. -/
def truthyN : Option ℕ → Bool
  | none => false
  | some n => n != 0

/-- The state of the `dendropy.interop.seqgen.SeqGen` object as configured by
`simulate_matrix` just before `generate` is called. -/
structure SeqGenSettings where
  seqgen_path : String
  char_model : String
  seq_len : ℕ
  state_freqs : Option String
  general_rates : Option String
  ti_tv : Option ℚ
  gamma_shape : Option String
  gamma_cats : Option ℕ
  prop_invar : Option String
  rng_seed : Option String
deriving DecidableEq, Repr

/-- The external Seq-Gen collaborator: `generate` produces the character
matrix and `compose_arguments` the literal command arguments
(`s._compose_arguments()`); both are opaque to this core. -/
structure SeqGenEngine where
  generate : SeqGenSettings → Tree → Alignment
  compose_arguments : SeqGenSettings → List String

/-- The `SeqGenResult` namedtuple (src/predsim.py lines 340-341). -/
structure SeqGenResult where
  char_matrix : Alignment
  command : String
  tree : String
deriving DecidableEq, Repr

/-- The validation and configuration part of `simulate_matrix`
(src/predsim.py lines 311-332): the two `ValueError` checks in source
order, then the fully configured `SeqGen` settings.  Both checks use Python
truthiness, not mere presence. -/
def simulate_matrix_settings (seq_len : ℕ) (state_freqs : Option String)
    (ti_tv : Option ℚ) (general_rates : Option String)
    (gamma_shape : Option String) (gamma_cats : Option ℕ)
    (prop_invar : Option String) (rng_seed : Option String)
    (seqgen_path : String) : Except PyError SeqGenSettings :=
  if truthyQ ti_tv && truthyS general_rates then
    .error (.valueError rate_conflict_msg)
  else if !truthyS gamma_shape && truthyN gamma_cats then
    .error (.valueError gamma_cats_msg)
  else
    .ok ⟨seqgen_path,
         if truthyS general_rates then gtr_name else hky_name,
         seq_len,
         state_freqs,
         if truthyS general_rates then general_rates else none,
         if truthyS general_rates then none
         else if truthyQ ti_tv then ti_tv else none,
         gamma_shape,
         gamma_cats,
         prop_invar,
         rng_seed⟩

def space_str : String := " "
def newline_str : String := "\n"

/-- The function `simulate_matrix` from src/predsim.py lines 281-337: validate and
configure, run the engine, and wrap matrix, command text
(`' '.join(s._compose_arguments()) + '\n'`) and the newick text of the
source tree into a `SeqGenResult`. -/
def simulate_matrix (engine : SeqGenEngine) (tree : Tree) (seq_len : ℕ)
    (state_freqs : Option String) (ti_tv : Option ℚ)
    (general_rates : Option String) (gamma_shape : Option String)
    (gamma_cats : Option ℕ) (prop_invar : Option String)
    (rng_seed : Option String) (seqgen_path : String) :
    Except PyError SeqGenResult := do
  let st ← simulate_matrix_settings seq_len state_freqs ti_tv general_rates
    gamma_shape gamma_cats prop_invar rng_seed seqgen_path
  pure ⟨engine.generate st tree,
        String.intercalate space_str (engine.compose_arguments st) ++ newline_str,
        tree_as_string tree⟩

/-- One iteration of the `iter_seqgen_results` loop (src/predsim.py lines
273-278): translate the record and call `simulate_matrix` with
`tree, seq_len=seq_len, rng_seed=rng_seed, seqgen_path=seqgen_path,
**seqgen_params`.  As in the source, `gamma_cats` is NOT among the keyword
arguments, so `simulate_matrix` receives its default `None` for it. -/
def iter_one (engine : SeqGenEngine) (seq_len : ℕ) (seqgen_path : String)
    (triple : SimTriple) : Except PyError SeqGenResult := do
  let params ← get_seqgen_params triple.2.1
  simulate_matrix engine triple.1 seq_len (some params.state_freqs)
    params.ti_tv params.general_rates params.gamma_shape none
    params.prop_invar triple.2.2 seqgen_path

/-- Driving the generator to exhaustion: the results yielded before the
first exception, paired with that exception if one occurred (fail-fast). -/
def run_simulations (engine : SeqGenEngine) (seq_len : ℕ) (seqgen_path : String) :
    List SimTriple → List SeqGenResult × Option PyError
  | [] => ([], none)
  | triple :: rest =>
    match iter_one engine seq_len seqgen_path triple with
    | .error e => ([], some e)
    | .ok r =>
      let tail := run_simulations engine seq_len seqgen_path rest
      (r :: tail.1, tail.2)

/-- The orchestrator `iter_seqgen_results` from src/predsim.py lines 269-278, consumed to
exhaustion.  The `gamma_cats` parameter is accepted but, exactly as in the
source, never forwarded to `simulate_matrix`. -/
def iter_seqgen_results (simulation_input : List SimTriple) (seq_len : ℕ)
    (gamma_cats : Option ℕ) (seqgen_path : String) (engine : SeqGenEngine) :
    List SeqGenResult × Option PyError :=
  run_simulations engine seq_len seqgen_path simulation_input

/-- The Ti/Tv value as the specification words it: the closed formula on
the (possibly rescaled) frequencies. -/
def titv_spec (kappa piA piC piG piT : ℚ) : ℚ :=
  let tot := piA + piC + piG + piT
  if |tot - 1| ≤ 1 / 1000000 then
    kappa * (piA * piG + piC * piT) / ((piA + piG) * (piC + piT))
  else
    kappa * ((piA / tot) * (piG / tot) + (piC / tot) * (piT / tot)) /
      (((piA / tot) + (piG / tot)) * ((piC / tot) + (piT / tot)))

/- Concrete fixtures used by the example theorems and witnesses. -/

def v025 : String := "0.25"
def vOne : String := "1"
def vZero : String := "0"

def d_freqs : PDict :=
  [(piA_key, v025), (piC_key, v025), (piG_key, v025), (piT_key, v025)]

def d_ACG : PDict := [(piA_key, v025), (piC_key, v025), (piG_key, v025)]

def rate_entries : PDict :=
  [(rAC_key, vOne), (rAG_key, vOne), (rAT_key, vOne),
   (rCG_key, vOne), (rCT_key, vOne), (rGT_key, vOne)]

def d_both_zero_kappa : PDict := d_freqs ++ [(kappa_key, vZero)] ++ rate_entries

def d_both_kappa_one : PDict := d_freqs ++ [(kappa_key, vOne)] ++ rate_entries

def tree1_newick : String := "((t1:0,t2:0):0,t3:0,t4:0);"
def tree2_newick : String := "((t1:1,t2:1):1,t3:1,t4:1);"

def tree1 : Tree := ⟨tree1_newick⟩
def tree2 : Tree := ⟨tree2_newick⟩

def sg_default : String := "seq-gen"

/-- A trivial stand-in for the external Seq-Gen collaborator. -/
def test_engine : SeqGenEngine := ⟨fun _ _ => [], fun _ => [sg_default]⟩

def rates_str : String := "1,1,1,1,1,1"

def params_freqs_only : SeqgenParams := ⟨default_state_freqs, none, none, none, none⟩

def seqgen_cmd : String := "seq-gen\n"

def seed1_str : String := "123321"
def seed2_str : String := "456654"

/- Helper lemmas about the `Except` monad as used by the embedding. -/

theorem bind_ok_reduce {α β : Type} (a : α) (f : α → Except PyError β) :
    (Except.ok a >>= f) = f a := rfl

theorem bind_err_reduce {α β : Type} (e : PyError) (f : α → Except PyError β) :
    ((Except.error e : Except PyError α) >>= f) = .error e := rfl

theorem except_bind_eq_ok {α β : Type} {x : Except PyError α}
    {f : α → Except PyError β} {b : β} :
    x >>= f = .ok b ↔ ∃ a, x = .ok a ∧ f a = .ok b := by
  cases x <;> simp [bind_ok_reduce, bind_err_reduce]

theorem except_bind_eq_error {α β : Type} {x : Except PyError α}
    {f : α → Except PyError β} {e : PyError} :
    x >>= f = .error e ↔ x = .error e ∨ ∃ a, x = .ok a ∧ f a = .error e := by
  cases x <;> simp [bind_ok_reduce, bind_err_reduce]

theorem pyDiv_error {a b : ℚ} {e : PyError} (h : pyDiv a b = .error e) :
    e = .zeroDivisionError := by
  unfold pyDiv at h
  split at h <;> simp_all

/-- Claim C4: for all kappa and all (nonnegative) frequencies with nonzero
purine and pyrimidine groups, `kappa_to_titv` returns the spec formula: the
plain formula when the frequencies sum to 1 within absolute tolerance 1e-6,
and the formula on the sum-rescaled frequencies otherwise; in particular
`kappa_to_titv(1, .2, .2, .3, .3) == 0.48` and
`kappa_to_titv(1, .1, .1, .1, .1) == 0.5`. -/
theorem c4_kappa_to_titv_formula :
    (∀ kappa piA piC piG piT : ℚ, 0 ≤ piA → 0 ≤ piC → 0 ≤ piG → 0 ≤ piT →
      piA + piG ≠ 0 → piC + piT ≠ 0 →
      kappa_to_titv kappa piA piC piG piT = .ok (titv_spec kappa piA piC piG piT))
    ∧ kappa_to_titv 1 (2/10) (2/10) (3/10) (3/10) = .ok (48/100)
    ∧ kappa_to_titv 1 (1/10) (1/10) (1/10) (1/10) = .ok (5/10) := by
  refine ⟨?_, by decide, by decide⟩
  intro kappa piA piC piG piT ha hc hg ht hag hct
  have hag' : 0 < piA + piG := (add_nonneg ha hg).lt_of_ne (Ne.symm hag)
  have hct' : 0 < piC + piT := (add_nonneg hc ht).lt_of_ne (Ne.symm hct)
  unfold kappa_to_titv titv_spec
  by_cases h : |piA + piC + piG + piT - 1| > 1 / 1000000
  · have htot : piA + piC + piG + piT ≠ 0 := by nlinarith
    have hden : (piA / (piA + piC + piG + piT) + piG / (piA + piC + piG + piT)) *
        (piC / (piA + piC + piG + piT) + piT / (piA + piC + piG + piT)) ≠ 0 := by
      rw [div_add_div_same, div_add_div_same]
      exact mul_ne_zero (div_ne_zero hag htot) (div_ne_zero hct htot)
    rw [if_pos h, if_neg (not_le.mpr h)]
    simp only [pyDiv, if_neg htot, bind_ok_reduce, if_neg hden]
  · have hden : (piA + piG) * (piC + piT) ≠ 0 := mul_ne_zero hag hct
    rw [if_neg h, if_pos (not_lt.mp h)]
    simp only [pyDiv, if_neg hden]

/-- Claim C4 witness: the general statement instantiated at equal
frequencies 1/4. -/
theorem c4_witness :
    kappa_to_titv 1 (1/4) (1/4) (1/4) (1/4) = .ok (titv_spec 1 (1/4) (1/4) (1/4) (1/4)) :=
  c4_kappa_to_titv_formula.1 1 (1/4) (1/4) (1/4) (1/4)
    (by norm_num) (by norm_num) (by norm_num) (by norm_num) (by norm_num) (by norm_num)

/-- Claim C5: whenever the purine group or the pyrimidine group of the
(post-rescaling) frequencies is zero, `kappa_to_titv` raises
`ZeroDivisionError`, which propagates; in particular
`kappa_to_titv(1, .5, .0, .5, .0)` fails. -/
theorem c5_zero_group_fails :
    (∀ kappa piA piC piG piT : ℚ,
      ((rescaled_freqs piA piC piG piT).1 + (rescaled_freqs piA piC piG piT).2.2.1 = 0 ∨
       (rescaled_freqs piA piC piG piT).2.1 + (rescaled_freqs piA piC piG piT).2.2.2 = 0) →
      kappa_to_titv kappa piA piC piG piT = .error .zeroDivisionError)
    ∧ kappa_to_titv 1 (5/10) 0 (5/10) 0 = .error .zeroDivisionError := by
  refine ⟨?_, by decide⟩
  intro kappa piA piC piG piT hyp
  simp only [rescaled_freqs] at hyp
  unfold kappa_to_titv
  by_cases h : |piA + piC + piG + piT - 1| > 1 / 1000000
  · simp only [if_pos h] at hyp ⊢
    by_cases htot : piA + piC + piG + piT = 0
    · simp only [pyDiv, if_pos htot, bind_err_reduce]
    · have hden : (piA / (piA + piC + piG + piT) + piG / (piA + piC + piG + piT)) *
          (piC / (piA + piC + piG + piT) + piT / (piA + piC + piG + piT)) = 0 :=
        mul_eq_zero.mpr hyp
      simp only [pyDiv, if_neg htot, bind_ok_reduce, if_pos hden]
  · simp only [if_neg h] at hyp ⊢
    have hden : (piA + piG) * (piC + piT) = 0 := mul_eq_zero.mpr hyp
    simp only [pyDiv, if_pos hden]

/-- Claim C5 witness: the general statement instantiated at the spec's
example, where the pyrimidine group is zero without rescaling. -/
theorem c5_witness :
    kappa_to_titv 2 (5/10) 0 (5/10) 0 = .error .zeroDivisionError :=
  c5_zero_group_fails.1 2 (5/10) 0 (5/10) 0 (by right; norm_num [rescaled_freqs])

theorem gamma_msg_ne_rate_msg : gamma_cats_msg ≠ rate_conflict_msg := by decide

/-- The function `simulate_matrix` raises the mutual-exclusion `ValueError` exactly when
both `ti_tv` and `general_rates` are truthy. -/
theorem simulate_matrix_rate_conflict_iff (engine : SeqGenEngine) (tree : Tree)
    (slen : ℕ) (sf : Option String) (ti : Option ℚ) (gr : Option String)
    (gaS : Option String) (gaC : Option ℕ) (pv : Option String)
    (seed : Option String) (path : String) :
    simulate_matrix engine tree slen sf ti gr gaS gaC pv seed path
      = .error (.valueError rate_conflict_msg)
    ↔ (truthyQ ti && truthyS gr) = true := by
  unfold simulate_matrix simulate_matrix_settings
  cases hc : (truthyQ ti && truthyS gr) with
  | false =>
    simp only [Bool.false_eq_true, if_false]
    cases hg : (!truthyS gaS && truthyN gaC) with
    | false =>
      simp only [Bool.false_eq_true, if_false, bind_ok_reduce]
      simp [pure, Except.pure]
    | true =>
      simp only [if_pos rfl, bind_err_reduce]
      simp [gamma_msg_ne_rate_msg]
  | true =>
    simp only [if_pos rfl, bind_err_reduce]
    simp

/-- Claim C10: the mutual-exclusion check of `simulate_matrix` tests Python
truthiness, not presence.  With a truthy `general_rates` and `ti_tv` set to
`0.0`, the call behaves exactly as if `ti_tv` were `None` (so the
simulation proceeds and the configured model is GTR), and the
mutual-exclusion `ValueError` is raised precisely when both arguments are
truthy. -/
theorem c10_truthy_mutual_exclusion :
    ∀ (engine : SeqGenEngine) (tree : Tree) (slen : ℕ) (sf : Option String)
      (ti : Option ℚ) (gr : Option String) (gaS : Option String)
      (gaC : Option ℕ) (pv : Option String) (seed : Option String) (path : String),
    ((truthyS gr = true ∧ ti = some 0) →
      simulate_matrix engine tree slen sf ti gr gaS gaC pv seed path
        = simulate_matrix engine tree slen sf none gr gaS gaC pv seed path
      ∧ ∀ st, simulate_matrix_settings slen sf ti gr gaS gaC pv seed path = .ok st →
          st.char_model = gtr_name)
    ∧ (simulate_matrix engine tree slen sf ti gr gaS gaC pv seed path
        = .error (.valueError rate_conflict_msg)
       ↔ (truthyQ ti = true ∧ truthyS gr = true)) := by
  intro engine tree slen sf ti gr gaS gaC pv seed path
  constructor
  · rintro ⟨hgr, rfl⟩
    have hti : truthyQ (some (0 : ℚ)) = false := by decide
    constructor
    · unfold simulate_matrix simulate_matrix_settings
      rw [hti]
      rfl
    · intro st hst
      unfold simulate_matrix_settings at hst
      rw [hti] at hst
      simp only [Bool.false_and, Bool.false_eq_true, if_false] at hst
      split at hst
      · exact absurd hst (by simp)
      · cases hst
        simp [hgr]
  · rw [simulate_matrix_rate_conflict_iff, Bool.and_eq_true]

/-- Claim C10 witness: with `general_rates = "1,1,1,1,1,1"` and
`ti_tv = 0.0`, `simulate_matrix` behaves as if `ti_tv` were `None`. -/
theorem c10_witness :
    simulate_matrix test_engine tree1 1000 none (some 0) (some rates_str)
        none none none none sg_default
      = simulate_matrix test_engine tree1 1000 none none (some rates_str)
        none none none none sg_default :=
  ((c10_truthy_mutual_exclusion test_engine tree1 1000 none (some 0) (some rates_str)
    none none none none sg_default).1 ⟨by decide, rfl⟩).1

/-- Claim C2 (the code's actual behavior): `iter_seqgen_results` accepts a
`gamma_cats` override but never forwards it to `simulate_matrix`, so the
override has no effect at all; in particular on a sample with no `alpha`
and `gamma_cats = 5` the orchestrator yields a normal record instead of the
ConfigurationError required by the spec. -/
theorem c2_gamma_cats_dropped :
    (∀ (simulation_input : List SimTriple) (slen : ℕ) (gc : Option ℕ)
       (path : String) (engine : SeqGenEngine),
      iter_seqgen_results simulation_input slen gc path engine
        = iter_seqgen_results simulation_input slen none path engine)
    ∧ iter_seqgen_results [(tree1, d_freqs, none)] 1000 (some 5) sg_default test_engine
        = ([⟨[], seqgen_cmd, tree1_newick⟩], none) :=
  ⟨fun _ _ _ _ _ => rfl, by decide⟩

/- Inversion lemmas for the parameter translator. -/

theorem has_key_of_pyLookup_ok {d : PDict} {k v} (h : pyLookup d k = .ok v) :
    has_key d k := by
  unfold pyLookup at h
  unfold has_key
  cases hf : dict_find d k with
  | none => rw [hf] at h; simp at h
  | some w => simp [hf]

theorem has_key_lookup {d : PDict} {k} (h : has_key d k) :
    ∃ v, pyLookup d k = .ok v := by
  unfold has_key at h
  unfold pyLookup
  cases hf : dict_find d k with
  | none => rw [hf] at h; simp at h
  | some v => exact ⟨v, rfl⟩

theorem not_has_key_lookup {d : PDict} {k} (h : ¬ has_key d k) :
    pyLookup d k = .error (.keyError k) := by
  unfold has_key at h
  unfold pyLookup
  cases hf : dict_find d k with
  | none => rfl
  | some v => rw [hf] at h; simp at h

theorem catchKeyError_eq_ok_some {α : Type} {x : Except PyError α} {a : α} :
    catchKeyError x = .ok (some a) ↔ x = .ok a := by
  unfold catchKeyError
  cases x with
  | ok b => simp
  | error e => cases e <;> simp

theorem pyFloat_error {s : String} {e : PyError} (h : pyFloat s = .error e) :
    ∃ m, e = .valueError m := by
  unfold pyFloat at h
  cases hp : parsePyFloat s with
  | some q => rw [hp] at h; simp at h
  | none => rw [hp] at h; simp at h; exact ⟨floatErrMsg s, h.symm⟩

theorem kappa_to_titv_error {k a c g t : ℚ} {e : PyError}
    (h : kappa_to_titv k a c g t = .error e) : e = .zeroDivisionError := by
  unfold kappa_to_titv at h
  dsimp only at h
  split at h
  · rcases except_bind_eq_error.mp h with h1 | ⟨x1, _, h⟩
    · exact pyDiv_error h1
    rcases except_bind_eq_error.mp h with h1 | ⟨x2, _, h⟩
    · exact pyDiv_error h1
    rcases except_bind_eq_error.mp h with h1 | ⟨x3, _, h⟩
    · exact pyDiv_error h1
    rcases except_bind_eq_error.mp h with h1 | ⟨x4, _, h⟩
    · exact pyDiv_error h1
    exact pyDiv_error h
  · exact pyDiv_error h

theorem get_seqgen_params_ok_inv {d : PDict} {p : SeqgenParams}
    (h : get_seqgen_params d = .ok p) :
    catchKeyErrorD (state_freqs_block d) default_state_freqs = .ok p.state_freqs ∧
    catchKeyError (ti_tv_block d) = .ok p.ti_tv ∧
    catchKeyError (general_rates_block d) = .ok p.general_rates ∧
    catchKeyError (pyLookup d alpha_key) = .ok p.gamma_shape ∧
    catchKeyError (pyLookup d pinvar_key) = .ok p.prop_invar := by
  unfold get_seqgen_params at h
  rcases except_bind_eq_ok.mp h with ⟨sf, h1, h⟩
  rcases except_bind_eq_ok.mp h with ⟨titv, h2, h⟩
  rcases except_bind_eq_ok.mp h with ⟨gr, h3, h⟩
  rcases except_bind_eq_ok.mp h with ⟨gs, h4, h⟩
  rcases except_bind_eq_ok.mp h with ⟨pv, h5, h⟩
  simp only [pure, Except.pure, Except.ok.injEq] at h
  subst h
  exact ⟨h1, h2, h3, h4, h5⟩

theorem state_freqs_block_missing {d : PDict}
    (h : ¬ has_key d piA_key ∨ ¬ has_key d piC_key ∨ ¬ has_key d piG_key ∨
      ¬ has_key d piT_key) :
    ∃ k, state_freqs_block d = .error (.keyError k) := by
  by_cases hA : has_key d piA_key
  case neg =>
    exact ⟨piA_key, by
      unfold state_freqs_block
      rw [not_has_key_lookup hA, bind_err_reduce]⟩
  obtain ⟨va, hva⟩ := has_key_lookup hA
  by_cases hC : has_key d piC_key
  case neg =>
    exact ⟨piC_key, by
      unfold state_freqs_block
      rw [hva, bind_ok_reduce, not_has_key_lookup hC, bind_err_reduce]⟩
  obtain ⟨vc, hvc⟩ := has_key_lookup hC
  by_cases hG : has_key d piG_key
  case neg =>
    exact ⟨piG_key, by
      unfold state_freqs_block
      rw [hva, bind_ok_reduce, hvc, bind_ok_reduce, not_has_key_lookup hG,
        bind_err_reduce]⟩
  obtain ⟨vg, hvg⟩ := has_key_lookup hG
  by_cases hT : has_key d piT_key
  case neg =>
    exact ⟨piT_key, by
      unfold state_freqs_block
      rw [hva, bind_ok_reduce, hvc, bind_ok_reduce, hvg, bind_ok_reduce,
        not_has_key_lookup hT, bind_err_reduce]⟩
  rcases h with h | h | h | h <;> exact absurd (by assumption) h

theorem ti_tv_block_ok_keys {d : PDict} {v : ℚ} (h : ti_tv_block d = .ok v) :
    has_key d kappa_key ∧ has_key d piA_key ∧ has_key d piC_key ∧
    has_key d piG_key ∧ has_key d piT_key := by
  unfold ti_tv_block at h
  rcases except_bind_eq_ok.mp h with ⟨ks, hks, h⟩
  rcases except_bind_eq_ok.mp h with ⟨qk, _, h⟩
  rcases except_bind_eq_ok.mp h with ⟨sa, hsa, h⟩
  rcases except_bind_eq_ok.mp h with ⟨qa, _, h⟩
  rcases except_bind_eq_ok.mp h with ⟨sc, hsc, h⟩
  rcases except_bind_eq_ok.mp h with ⟨qc, _, h⟩
  rcases except_bind_eq_ok.mp h with ⟨sg, hsg, h⟩
  rcases except_bind_eq_ok.mp h with ⟨qg, _, h⟩
  rcases except_bind_eq_ok.mp h with ⟨sT, hsT, h⟩
  exact ⟨has_key_of_pyLookup_ok hks, has_key_of_pyLookup_ok hsa,
    has_key_of_pyLookup_ok hsc, has_key_of_pyLookup_ok hsg,
    has_key_of_pyLookup_ok hsT⟩

theorem ti_tv_block_no_keyError {d : PDict}
    (h1 : has_key d kappa_key) (h2 : has_key d piA_key) (h3 : has_key d piC_key)
    (h4 : has_key d piG_key) (h5 : has_key d piT_key) :
    ∀ kk, ti_tv_block d ≠ .error (.keyError kk) := by
  intro kk hcon
  obtain ⟨vk, hvk⟩ := has_key_lookup h1
  obtain ⟨va, hva⟩ := has_key_lookup h2
  obtain ⟨vc, hvc⟩ := has_key_lookup h3
  obtain ⟨vg, hvg⟩ := has_key_lookup h4
  obtain ⟨vt, hvt⟩ := has_key_lookup h5
  unfold ti_tv_block at hcon
  rw [hvk, bind_ok_reduce] at hcon
  cases hfk : pyFloat vk with
  | error e =>
    rw [hfk, bind_err_reduce] at hcon
    obtain ⟨m, hm⟩ := pyFloat_error hfk
    simp [hm] at hcon
  | ok qk =>
  rw [hfk, bind_ok_reduce, hva, bind_ok_reduce] at hcon
  cases hfa : pyFloat va with
  | error e =>
    rw [hfa, bind_err_reduce] at hcon
    obtain ⟨m, hm⟩ := pyFloat_error hfa
    simp [hm] at hcon
  | ok qa =>
  rw [hfa, bind_ok_reduce, hvc, bind_ok_reduce] at hcon
  cases hfc : pyFloat vc with
  | error e =>
    rw [hfc, bind_err_reduce] at hcon
    obtain ⟨m, hm⟩ := pyFloat_error hfc
    simp [hm] at hcon
  | ok qc =>
  rw [hfc, bind_ok_reduce, hvg, bind_ok_reduce] at hcon
  cases hfg : pyFloat vg with
  | error e =>
    rw [hfg, bind_err_reduce] at hcon
    obtain ⟨m, hm⟩ := pyFloat_error hfg
    simp [hm] at hcon
  | ok qg =>
  rw [hfg, bind_ok_reduce, hvt, bind_ok_reduce] at hcon
  cases hft : pyFloat vt with
  | error e =>
    rw [hft, bind_err_reduce] at hcon
    obtain ⟨m, hm⟩ := pyFloat_error hft
    simp [hm] at hcon
  | ok qt =>
  rw [hft, bind_ok_reduce] at hcon
  have := kappa_to_titv_error hcon
  simp at this

theorem general_rates_block_ok_keys {d : PDict} {v : String}
    (h : general_rates_block d = .ok v) :
    has_key d rAC_key ∧ has_key d rAG_key ∧ has_key d rAT_key ∧
    has_key d rCG_key ∧ has_key d rCT_key ∧ has_key d rGT_key := by
  unfold general_rates_block at h
  rcases except_bind_eq_ok.mp h with ⟨r1, hr1, h⟩
  rcases except_bind_eq_ok.mp h with ⟨r2, hr2, h⟩
  rcases except_bind_eq_ok.mp h with ⟨r3, hr3, h⟩
  rcases except_bind_eq_ok.mp h with ⟨r4, hr4, h⟩
  rcases except_bind_eq_ok.mp h with ⟨r5, hr5, h⟩
  rcases except_bind_eq_ok.mp h with ⟨r6, hr6, h⟩
  exact ⟨has_key_of_pyLookup_ok hr1, has_key_of_pyLookup_ok hr2,
    has_key_of_pyLookup_ok hr3, has_key_of_pyLookup_ok hr4,
    has_key_of_pyLookup_ok hr5, has_key_of_pyLookup_ok hr6⟩

theorem general_rates_block_of_keys {d : PDict}
    (h1 : has_key d rAC_key) (h2 : has_key d rAG_key) (h3 : has_key d rAT_key)
    (h4 : has_key d rCG_key) (h5 : has_key d rCT_key) (h6 : has_key d rGT_key) :
    ∃ v, general_rates_block d = .ok v := by
  obtain ⟨r1, hr1⟩ := has_key_lookup h1
  obtain ⟨r2, hr2⟩ := has_key_lookup h2
  obtain ⟨r3, hr3⟩ := has_key_lookup h3
  obtain ⟨r4, hr4⟩ := has_key_lookup h4
  obtain ⟨r5, hr5⟩ := has_key_lookup h5
  obtain ⟨r6, hr6⟩ := has_key_lookup h6
  refine ⟨r1 ++ comma_str ++ r2 ++ comma_str ++ r3 ++ comma_str ++ r4 ++
    comma_str ++ r5 ++ comma_str ++ r6, ?_⟩
  unfold general_rates_block
  rw [hr1, bind_ok_reduce, hr2, bind_ok_reduce, hr3, bind_ok_reduce,
    hr4, bind_ok_reduce, hr5, bind_ok_reduce, hr6, bind_ok_reduce]
  rfl

theorem general_rates_block_ok_ne_empty {d : PDict} {v : String}
    (h : general_rates_block d = .ok v) : v ≠ "" := by
  unfold general_rates_block at h
  rcases except_bind_eq_ok.mp h with ⟨r1, _, h⟩
  rcases except_bind_eq_ok.mp h with ⟨r2, _, h⟩
  rcases except_bind_eq_ok.mp h with ⟨r3, _, h⟩
  rcases except_bind_eq_ok.mp h with ⟨r4, _, h⟩
  rcases except_bind_eq_ok.mp h with ⟨r5, _, h⟩
  rcases except_bind_eq_ok.mp h with ⟨r6, _, h⟩
  simp only [pure, Except.pure, Except.ok.injEq] at h
  intro hv
  rw [hv] at h
  have hlen := congrArg String.length h
  have hcomma : comma_str.length = 1 := rfl
  simp [String.length_append, hcomma, String.length_empty] at hlen

/-- Claim C1 (amended): a record missing any of the four base-frequency keys
does not make `get_seqgen_params` fail with a MissingData/KeyError; the
`KeyError` is caught and any returned parameter set has `state_freqs`
defaulted to `"0.25,0.25,0.25,0.25"`; in particular a record holding only
`pi(A)`, `pi(C)`, `pi(G)` yields the defaulted parameter set. -/
theorem c1_missing_freq_defaults :
    (∀ d : PDict,
      (¬ has_key d piA_key ∨ ¬ has_key d piC_key ∨ ¬ has_key d piG_key ∨
        ¬ has_key d piT_key) →
      ∀ p, get_seqgen_params d = .ok p → p.state_freqs = default_state_freqs)
    ∧ get_seqgen_params d_ACG = .ok params_freqs_only := by
  refine ⟨?_, by decide⟩
  intro d hmiss p hok
  obtain ⟨hsf, -, -, -, -⟩ := get_seqgen_params_ok_inv hok
  obtain ⟨k, hk⟩ := state_freqs_block_missing hmiss
  rw [hk] at hsf
  simp [catchKeyErrorD] at hsf
  exact hsf.symm

/-- Claim C1 counterexample to the claim as stated: on the record holding
only `pi(A)`, `pi(C)`, `pi(G)` (so `pi(T)` is absent), `get_seqgen_params`
returns a parameter set — it does not fail with any error. -/
theorem c1_counterexample :
    get_seqgen_params d_ACG = .ok params_freqs_only := by decide

/-- Claim C1 witness: the amended theorem applied to the concrete record
missing `pi(T)`. -/
theorem c1_witness :
    (¬ has_key d_ACG piT_key) ∧ params_freqs_only.state_freqs = default_state_freqs :=
  ⟨by decide, c1_missing_freq_defaults.1 d_ACG (Or.inr (Or.inr (Or.inr (by decide))))
    params_freqs_only (by decide)⟩

/-- Claim C9: whenever `get_seqgen_params` returns a parameter set, it
contains `ti_tv` exactly when `kappa` and the four base-frequency keys are
all present, and `general_rates` exactly when all six pairwise rate keys are
present; absence of these keys is not an error, and the four-equal-frequency
record yields `state_freqs = "0.25,0.25,0.25,0.25"` with neither field. -/
theorem c9_optional_fields :
    (∀ (d : PDict) (p : SeqgenParams), get_seqgen_params d = .ok p →
      (p.ti_tv.isSome = true ↔
        has_key d kappa_key ∧ has_key d piA_key ∧ has_key d piC_key ∧
        has_key d piG_key ∧ has_key d piT_key) ∧
      (p.general_rates.isSome = true ↔
        has_key d rAC_key ∧ has_key d rAG_key ∧ has_key d rAT_key ∧
        has_key d rCG_key ∧ has_key d rCT_key ∧ has_key d rGT_key))
    ∧ get_seqgen_params d_freqs = .ok params_freqs_only := by
  refine ⟨?_, by decide⟩
  intro d p hok
  obtain ⟨-, hti, hgr, -, -⟩ := get_seqgen_params_ok_inv hok
  constructor
  · constructor
    · intro hsome
      obtain ⟨v, hv⟩ := Option.isSome_iff_exists.mp hsome
      rw [hv] at hti
      exact ti_tv_block_ok_keys (catchKeyError_eq_ok_some.mp hti)
    · rintro ⟨h1, h2, h3, h4, h5⟩
      cases hb : ti_tv_block d with
      | ok v =>
        rw [hb] at hti
        simp only [catchKeyError, Except.ok.injEq] at hti
        rw [← hti]
        rfl
      | error e =>
        cases e with
        | keyError kk => exact absurd hb (ti_tv_block_no_keyError h1 h2 h3 h4 h5 kk)
        | valueError m => rw [hb] at hti; simp [catchKeyError] at hti
        | zeroDivisionError => rw [hb] at hti; simp [catchKeyError] at hti
        | assertionError m => rw [hb] at hti; simp [catchKeyError] at hti
  · constructor
    · intro hsome
      obtain ⟨v, hv⟩ := Option.isSome_iff_exists.mp hsome
      rw [hv] at hgr
      exact general_rates_block_ok_keys (catchKeyError_eq_ok_some.mp hgr)
    · rintro ⟨h1, h2, h3, h4, h5, h6⟩
      obtain ⟨v, hv⟩ := general_rates_block_of_keys h1 h2 h3 h4 h5 h6
      rw [hv] at hgr
      simp only [catchKeyError, Except.ok.injEq] at hgr
      rw [← hgr]
      rfl

/-- Claim C9 witness: the general statement applied to the four-frequency
record, for which both optional fields come out absent and all rate keys are
absent. -/
theorem c9_witness :
    (params_freqs_only.ti_tv.isSome = true ↔
      has_key d_freqs kappa_key ∧ has_key d_freqs piA_key ∧ has_key d_freqs piC_key ∧
      has_key d_freqs piG_key ∧ has_key d_freqs piT_key) ∧
    (params_freqs_only.general_rates.isSome = true ↔
      has_key d_freqs rAC_key ∧ has_key d_freqs rAG_key ∧ has_key d_freqs rAT_key ∧
      has_key d_freqs rCG_key ∧ has_key d_freqs rCT_key ∧ has_key d_freqs rGT_key) :=
  c9_optional_fields.1 d_freqs params_freqs_only (by decide)

/-- Claim C6 (amended): when the translated parameter set has
`general_rates` set and `ti_tv` set to a nonzero (truthy) value, the
orchestrator fails with the mutual-exclusion `ValueError` for that
replicate — independent of the engine, hence before the simulator is
invoked — and yields no record for it or any later triple. -/
theorem c6_both_rate_models_amended :
    ∀ (d : PDict) (p : SeqgenParams) (g : String) (t : ℚ) (tree : Tree)
      (seed : RngSeed) (rest : List SimTriple) (engine : SeqGenEngine)
      (slen : ℕ) (gc : Option ℕ) (path : String),
      get_seqgen_params d = .ok p → p.ti_tv = some t → t ≠ 0 →
      p.general_rates = some g →
      iter_seqgen_results ((tree, d, seed) :: rest) slen gc path engine
        = ([], some (.valueError rate_conflict_msg)) := by
  intro d p g t tree seed rest engine slen gc path hok hti ht hg
  have hgr_ok : general_rates_block d = .ok g := by
    obtain ⟨-, -, hgr, -, -⟩ := get_seqgen_params_ok_inv hok
    rw [hg] at hgr
    exact catchKeyError_eq_ok_some.mp hgr
  have hgne : g ≠ "" := general_rates_block_ok_ne_empty hgr_ok
  have hone : iter_one engine slen path (tree, d, seed)
      = .error (.valueError rate_conflict_msg) := by
    unfold iter_one
    dsimp only
    rw [hok, bind_ok_reduce]
    unfold simulate_matrix simulate_matrix_settings
    have hcond : (truthyQ p.ti_tv && truthyS p.general_rates) = true := by
      rw [hti, hg]
      simp [truthyQ, truthyS, bne_iff_ne, ht, hgne]
    rw [if_pos hcond, bind_err_reduce]
  unfold iter_seqgen_results run_simulations
  rw [hone]

/-- Claim C6 counterexample to the claim as stated: with `kappa = 0` the
translated set has BOTH `ti_tv` (as `0.0`) and `general_rates` set, yet the
orchestrator raises nothing and produces a simulation record. -/
theorem c6_counterexample :
    get_seqgen_params d_both_zero_kappa
      = .ok ⟨default_state_freqs, some 0, some rates_str, none, none⟩
    ∧ iter_seqgen_results [(tree1, d_both_zero_kappa, none)] 1000 none sg_default
        test_engine
      = ([⟨[], seqgen_cmd, tree1_newick⟩], none) :=
  ⟨by decide, by decide⟩

/-- Claim C6 witness: the amended theorem applied to a record with
`kappa = 1`, equal frequencies and all six rates, whose translated `ti_tv`
is 0.5. -/
theorem c6_witness :
    iter_seqgen_results [(tree1, d_both_kappa_one, none)] 1000 none sg_default
        test_engine
      = ([], some (.valueError rate_conflict_msg)) :=
  c6_both_rate_models_amended d_both_kappa_one
    ⟨default_state_freqs, some (1/2), some rates_str, none, none⟩ rates_str (1/2)
    tree1 none [] test_engine 1000 none sg_default (by decide) rfl (by norm_num) rfl

/- List lemmas for the input combiner and the orchestrator. -/

theorem zip3_length {α β γ : Type} :
    ∀ (a : List α) (b : List β) (c : List γ),
      (zip3 a b c).length = min a.length (min b.length c.length) := by
  intro a
  induction a with
  | nil => intro b c; simp [zip3]
  | cons x xs ih =>
    intro b c
    cases b with
    | nil => simp [zip3]
    | cons y ys =>
      cases c with
      | nil => simp [zip3]
      | cons z zs =>
        simp only [zip3, List.length_cons, ih]
        omega

theorem zip3_getElem_q {α β γ : Type} :
    ∀ (as : List α) (bs : List β) (cs : List γ) (i : ℕ),
      (zip3 as bs cs)[i]? = (as[i]?).bind (fun x =>
        (bs[i]?).bind (fun y => (cs[i]?).map (fun z => (x, y, z)))) := by
  intro as
  induction as with
  | nil => intro bs cs i; simp [zip3]
  | cons x xs ih =>
    intro bs cs i
    cases bs with
    | nil => simp [zip3]
    | cons y ys =>
      cases cs with
      | nil => simp [zip3]
      | cons z zs =>
        cases i with
        | zero => simp [zip3]
        | succ n => simp [zip3, ih]

theorem effective_seeds_length_ge {seeds : Option (List String)} {n : ℕ}
    (h : ∀ s, seeds = some s → n ≤ s.length) :
    n ≤ (effective_seeds seeds n).length := by
  cases seeds with
  | none => simp [effective_seeds]
  | some s =>
    cases s with
    | nil => simp [effective_seeds]
    | cons x xs => simpa [effective_seeds] using h (x :: xs) rfl

theorem effective_seeds_getElem_q {seeds : Option (List String)} {n i : ℕ}
    (hi : i < n) (h : ∀ s, seeds = some s → n ≤ s.length) :
    (effective_seeds seeds n)[i]? = some (seeds.bind (fun s => s[i]?)) := by
  cases seeds with
  | none => simp [effective_seeds, hi]
  | some s =>
    cases s with
    | nil =>
      have hn := h [] rfl
      simp only [List.length_nil, Nat.le_zero] at hn
      omega
    | cons x xs =>
      have hlen : i < (x :: xs).length := lt_of_lt_of_le hi (h (x :: xs) rfl)
      simp only [effective_seeds, List.getElem?_map, Option.some_bind]
      rw [List.getElem?_eq_getElem hlen]
      rfl

theorem combine_ok_inv {trees : List Tree} {pdicts : List PDict}
    {seeds : Option (List String)} {l : List SimTriple}
    (h : combine_simulation_input trees pdicts seeds = .ok l) :
    pdicts.length = trees.length ∧ pdicts ≠ [] ∧
    (∀ s, seeds = some s → pdicts.length ≤ s.length) ∧
    l = zip3 trees pdicts (effective_seeds seeds pdicts.length) := by
  unfold combine_simulation_input at h
  by_cases h1 : pdicts.length ≠ trees.length
  · rw [if_pos h1] at h; simp at h
  rw [if_neg h1] at h
  by_cases h2 : seed_shortfall pdicts seeds = true
  · rw [if_pos h2] at h; simp at h
  rw [if_neg h2] at h
  by_cases h3 : pdicts.length = 0
  · rw [if_pos h3] at h; simp at h
  rw [if_neg h3] at h
  simp only [Except.ok.injEq] at h
  refine ⟨not_not.mp h1, fun hnil => h3 (by simp [hnil]), ?_, h.symm⟩
  intro s hs
  subst hs
  simp only [seed_shortfall, decide_eq_true_eq] at h2
  omega

/-- Claim C7 (amended): the three `combine_simulation_input` checks fire in
source order — the tree/record cardinality assert first, then the seed
cardinality assert, then the emptiness assert.  A length mismatch always
yields the tree-mismatch message; a seed shortfall always yields one of the
two cardinality messages; empty samples yield the MissingData message only
once the cardinality check has passed. -/
theorem c7_combine_failures :
    ∀ (tree_list : List Tree) (p_dicts : List PDict)
      (rng_seeds : Option (List String)),
      (p_dicts.length ≠ tree_list.length →
        combine_simulation_input tree_list p_dicts rng_seeds
          = .error (.assertionError trees_mismatch_msg)) ∧
      ((∃ s, rng_seeds = some s ∧ s.length < p_dicts.length) →
        combine_simulation_input tree_list p_dicts rng_seeds
            = .error (.assertionError trees_mismatch_msg) ∨
        combine_simulation_input tree_list p_dicts rng_seeds
            = .error (.assertionError (seeds_msg p_dicts.length))) ∧
      (p_dicts.length = tree_list.length → p_dicts = [] →
        combine_simulation_input tree_list p_dicts rng_seeds
          = .error (.assertionError no_records_msg)) := by
  intro trees pdicts seeds
  refine ⟨?_, ?_, ?_⟩
  · intro h1
    unfold combine_simulation_input
    rw [if_pos h1]
  · rintro ⟨s, rfl, hs⟩
    by_cases h1 : pdicts.length ≠ trees.length
    · left
      unfold combine_simulation_input
      rw [if_pos h1]
    · right
      unfold combine_simulation_input
      rw [if_neg h1, if_pos (by simp [seed_shortfall, hs])]
  · intro hlen hnil
    subst hnil
    unfold combine_simulation_input
    rw [if_neg (not_not_intro hlen)]
    have h2 : ¬ (seed_shortfall [] seeds = true) := by
      cases seeds <;> simp [seed_shortfall]
    rw [if_neg h2]
    simp

/-- Claim C7 counterexample to the third conjunct as stated: with zero
samples but one topology the error is the cardinality-mismatch assert, not
the MissingData one. -/
theorem c7_counterexample :
    combine_simulation_input [tree1] [] none
      = .error (.assertionError trees_mismatch_msg)
    ∧ trees_mismatch_msg ≠ no_records_msg :=
  ⟨by decide, by decide⟩

/-- Claim C7 witness: the cardinality conjunct applied to one sample and
zero topologies. -/
theorem c7_witness :
    combine_simulation_input [] [d_freqs] none
      = .error (.assertionError trees_mismatch_msg) :=
  (c7_combine_failures [] [d_freqs] none).1 (by decide)

/-- Claim C8: on non-empty equal-length inputs with enough seeds, the
combiner returns exactly N triples pairing the i-th topology with the i-th
sample in order; absent seeds give `none` per triple and surplus seeds are
ignored (the result still has exactly N triples). -/
theorem c8_combine_success :
    ∀ (tree_list : List Tree) (p_dicts : List PDict)
      (rng_seeds : Option (List String)),
      p_dicts ≠ [] → p_dicts.length = tree_list.length →
      (∀ s, rng_seeds = some s → p_dicts.length ≤ s.length) →
      ∃ l, combine_simulation_input tree_list p_dicts rng_seeds = .ok l ∧
        l.length = p_dicts.length ∧
        ∀ i, i < p_dicts.length → ∃ tr pd, tree_list[i]? = some tr ∧
          p_dicts[i]? = some pd ∧
          l[i]? = some (tr, pd, rng_seeds.bind (fun s => s[i]?)) := by
  intro trees pdicts seeds hne hlen hseeds
  have h1 : ¬ pdicts.length ≠ trees.length := not_not_intro hlen
  have h2 : ¬ (seed_shortfall pdicts seeds = true) := by
    cases seeds with
    | none => simp [seed_shortfall]
    | some s =>
      simp only [seed_shortfall, decide_eq_true_eq, not_lt]
      exact hseeds s rfl
  have h3 : ¬ (pdicts.length = 0) := fun h => hne (List.length_eq_zero.mp h)
  refine ⟨zip3 trees pdicts (effective_seeds seeds pdicts.length), ?_, ?_, ?_⟩
  · unfold combine_simulation_input
    rw [if_neg h1, if_neg h2, if_neg h3]
  · rw [zip3_length, ← hlen]
    have := effective_seeds_length_ge hseeds
    omega
  · intro i hi
    have hit : i < trees.length := hlen ▸ hi
    refine ⟨trees[i], pdicts[i], List.getElem?_eq_getElem hit,
      List.getElem?_eq_getElem hi, ?_⟩
    rw [zip3_getElem_q, List.getElem?_eq_getElem hit, List.getElem?_eq_getElem hi,
      effective_seeds_getElem_q hi hseeds]
    rfl

/-- Claim C8 witness: two topologies, two samples, two seeds give two triples
in the original order. -/
theorem c8_witness :
    ∃ l, combine_simulation_input [tree1, tree2] [d_freqs, d_freqs]
        (some [seed1_str, seed2_str]) = .ok l ∧
      l.length = ([d_freqs, d_freqs] : List PDict).length ∧
      ∀ i, i < ([d_freqs, d_freqs] : List PDict).length → ∃ tr pd,
        ([tree1, tree2] : List Tree)[i]? = some tr ∧
        ([d_freqs, d_freqs] : List PDict)[i]? = some pd ∧
        l[i]? = some (tr, pd,
          (some [seed1_str, seed2_str] : Option (List String)).bind
            (fun s => s[i]?)) :=
  c8_combine_success [tree1, tree2] [d_freqs, d_freqs] (some [seed1_str, seed2_str])
    (by decide) (by decide) (by intro s hs; cases hs; decide)

/- Orchestrator lemmas. -/

theorem iter_one_ok_tree {engine : SeqGenEngine} {slen : ℕ} {path : String}
    {t : SimTriple} {r : SeqGenResult}
    (h : iter_one engine slen path t = .ok r) : r.tree = tree_as_string t.1 := by
  unfold iter_one at h
  rcases except_bind_eq_ok.mp h with ⟨p, -, hsim⟩
  unfold simulate_matrix at hsim
  rcases except_bind_eq_ok.mp hsim with ⟨st, -, hpure⟩
  simp only [pure, Except.pure, Except.ok.injEq] at hpure
  rw [← hpure]

theorem run_simulations_spec (engine : SeqGenEngine) (slen : ℕ) (path : String) :
    ∀ l : List SimTriple,
      (∀ t ∈ l, ∃ r, iter_one engine slen path t = .ok r) →
      (run_simulations engine slen path l).2 = none ∧
      (run_simulations engine slen path l).1.length = l.length ∧
      ∀ i : ℕ, (run_simulations engine slen path l).1[i]? =
        (l[i]?).bind (fun t => (iter_one engine slen path t).toOption) := by
  intro l
  induction l with
  | nil =>
    intro h
    refine ⟨rfl, rfl, ?_⟩
    intro i
    simp [run_simulations]
  | cons t rest ih =>
    intro h
    obtain ⟨r, hr⟩ := h t (List.mem_cons_self t rest)
    have ih' := ih (fun t' ht' => h t' (List.mem_cons_of_mem t ht'))
    unfold run_simulations
    rw [hr]
    refine ⟨ih'.1, by simp [ih'.2.1], ?_⟩
    intro i
    cases i with
    | zero => simp [hr, Except.toOption]
    | succ n => simp [ih'.2.2 n]

/-- Claim C3: on a valid combined input on which no per-replicate failure
occurs, the orchestrator yields exactly N records, the i-th record being the
result of the i-th triple, and the i-th record's source-tree text is the
serialized i-th input topology. -/
theorem c3_orchestrator_order :
    ∀ (tree_list : List Tree) (p_dicts : List PDict)
      (rng_seeds : Option (List String)) (input : List SimTriple)
      (engine : SeqGenEngine) (slen : ℕ) (gc : Option ℕ) (path : String),
      combine_simulation_input tree_list p_dicts rng_seeds = .ok input →
      (∀ t ∈ input, ∃ r, iter_one engine slen path t = .ok r) →
      (iter_seqgen_results input slen gc path engine).2 = none ∧
      (iter_seqgen_results input slen gc path engine).1.length = tree_list.length ∧
      (∀ i : ℕ, (iter_seqgen_results input slen gc path engine).1[i]? =
        (input[i]?).bind (fun t => (iter_one engine slen path t).toOption)) ∧
      (∀ i : ℕ, ((iter_seqgen_results input slen gc path engine).1[i]?).map
          SeqGenResult.tree = (tree_list[i]?).map tree_as_string) := by
  intro trees pdicts seeds input engine slen gc path hcomb hok
  obtain ⟨hlen, hne, hseeds, hinput⟩ := combine_ok_inv hcomb
  have hrun := run_simulations_spec engine slen path input hok
  have hlen_input : input.length = trees.length := by
    rw [hinput, zip3_length, ← hlen]
    have := effective_seeds_length_ge hseeds
    omega
  simp only [iter_seqgen_results]
  refine ⟨hrun.1, by rw [hrun.2.1, hlen_input], hrun.2.2, ?_⟩
  intro i
  rw [hrun.2.2 i]
  by_cases hi : i < trees.length
  · have hip : i < pdicts.length := by rw [hlen]; exact hi
    have hii : input[i]? = some (trees[i], pdicts[i],
        seeds.bind (fun s => s[i]?)) := by
      rw [hinput, zip3_getElem_q, List.getElem?_eq_getElem hi,
        List.getElem?_eq_getElem hip, effective_seeds_getElem_q hip hseeds]
      rfl
    obtain ⟨r, hr⟩ := hok _ (List.getElem?_mem hii)
    rw [hii, List.getElem?_eq_getElem hi]
    simp [hr, Except.toOption, iter_one_ok_tree hr]
  · have h1 : trees[i]? = none := List.getElem?_eq_none (le_of_not_lt hi)
    have h2 : input[i]? = none :=
      List.getElem?_eq_none (by rw [hlen_input]; exact le_of_not_lt hi)
    rw [h1, h2]
    rfl

/-- Claim C3 witness: the theorem applied to a one-element combined input
with the trivial engine. -/
theorem c3_witness :
    (iter_seqgen_results [(tree1, d_freqs, none)] 500 none sg_default test_engine).2
      = none ∧
    (iter_seqgen_results [(tree1, d_freqs, none)] 500 none sg_default
        test_engine).1.length = ([tree1] : List Tree).length ∧
    (∀ i : ℕ, (iter_seqgen_results [(tree1, d_freqs, none)] 500 none sg_default
        test_engine).1[i]? =
      (([(tree1, d_freqs, none)] : List SimTriple)[i]?).bind
        (fun t => (iter_one test_engine 500 sg_default t).toOption)) ∧
    (∀ i : ℕ, ((iter_seqgen_results [(tree1, d_freqs, none)] 500 none sg_default
        test_engine).1[i]?).map SeqGenResult.tree
      = (([tree1] : List Tree)[i]?).map tree_as_string) :=
  c3_orchestrator_order [tree1] [d_freqs] none [(tree1, d_freqs, none)] test_engine
    500 none sg_default (by decide)
    (by
      intro t ht
      simp only [List.mem_singleton] at ht
      subst ht
      exact ⟨⟨[], seqgen_cmd, tree1_newick⟩, by decide⟩)

end Predsim
